import Mathlib

/-!
Verification development for the arcade-game core of the repository
(the per-frame update loop in src/pages/Game.tsx, its collision
predicate, restart handler, and high-score persistence).

Modelling conventions:
* JavaScript numbers used for geometry are modelled as rationals (all the
  arithmetic performed on them — additions and subtractions of small
  integers, and one product with a value from the random generator — is
  exact in IEEE doubles, so rationals are a faithful carrier).
* The driver counters (frameCount, lastObstacleFrame, score,
  freezeCounter) only ever hold non-negative integers in the source and
  are modelled as naturals; the one subtraction on them
  (frameCount - lastObstacleFrame) is performed in the integers.
* Math.random() draws are supplied by an oracle: one record of rational
  draws per frame (freeze coin, obstacle-type coin, y position).
* localStorage is modelled as a map from the game mode to an optional
  string (the source keys entries by the mode-qualified name
  highScore-4G / highScore-5G, so one entry per mode).
* The JavaScript number NaN (produced by parseInt on a digit-free
  string) is modelled by the none case of an optional integer, with the
  comparison score > highScore false on NaN, as in JavaScript.
-/

namespace NeonSpeed

/-- The mode union type from Game.tsx: type GameMode = "4G" | "5G".
g4 is the degraded ("4G") mode, g5 the premium ("5G") mode. -/
inductive GameMode
  | g4
  | g5
  deriving DecidableEq

/-- interface GameObject: x, y, width, height, speed (pixel units). -/
structure GameObject where
  x : ℚ
  y : ℚ
  width : ℚ
  height : ℚ
  speed : ℚ
  deriving DecidableEq

/-- The obstacle variant tag: "meteor" | "satellite". -/
inductive ObstacleType
  | meteor
  | satellite
  deriving DecidableEq

/-- interface Obstacle extends GameObject with a variant tag. -/
structure Obstacle extends GameObject where
  type : ObstacleType
  deriving DecidableEq

/-- The mutable game state held in gameStateRef (Game.tsx lines 36-47). -/
structure GState where
  rocket : GameObject
  obstacles : List Obstacle
  keys : String → Bool
  score : Nat
  frameCount : Nat
  lastObstacleFrame : Nat
  lagFrames : Nat
  shouldFreeze : Bool
  freezeCounter : Nat

/-- One session of the Game view: the chosen mode, the game state ref,
the gameOver React state, the highScore React state (an optional integer,
none standing for NaN), and the persisted localStorage entries keyed by
mode. -/
structure Session where
  mode : GameMode
  state : GState
  gameOver : Bool
  highScore : Option Int
  store : GameMode → Option String

/-- Rocket move speed per frame: gameMode === "5G" ? 6 : 4 (line 107). -/
def moveSpeed : GameMode → ℚ
  | GameMode.g5 => 6
  | GameMode.g4 => 4

/-- Spawn-rate constant: gameMode === "5G" ? 60 : 50 (line 122). -/
def spawnRate : GameMode → Int
  | GameMode.g5 => 60
  | GameMode.g4 => 50

/-- Obstacle horizontal speed: gameMode === "5G" ? 4 : 3 (line 131). -/
def obstacleSpeed : GameMode → ℚ
  | GameMode.g5 => 4
  | GameMode.g4 => 3

/-- The Math.random() draws one frame may consume: the freeze coin
(compared against 0.5 on line 89), the obstacle-type coin (line 124) and
the obstacle y draw (line 128). Each is a real from [0, 1) in the source;
hypotheses on the range are stated where a theorem needs them. -/
structure FrameRand where
  freezeRand : ℚ
  typeRand : ℚ
  yRand : ℚ

/-- checkCollision (Game.tsx lines 306-313): the four-inequality
axis-aligned bounding-box overlap test, all comparisons strict. -/
def checkCollision (rect1 rect2 : GameObject) : Bool :=
  decide (rect1.x < rect2.x + rect2.width) &&
  decide (rect1.x + rect1.width > rect2.x) &&
  decide (rect1.y < rect2.y + rect2.height) &&
  decide (rect1.y + rect1.height > rect2.y)

/-- The rocket-movement block (lines 106-119): each held direction moves
by the mode speed, clamped to the 800x600 field. -/
def rocketMove (mode : GameMode) (keys : String → Bool) (r : GameObject) : GameObject :=
  let ms := moveSpeed mode
  let r1 := if keys ("w") || keys ("arrowup") then {r with y := max 0 (r.y - ms)} else r
  let r2 := if keys ("s") || keys ("arrowdown") then
      {r1 with y := min (600 - r1.height) (r1.y + ms)} else r1
  let r3 := if keys ("a") || keys ("arrowleft") then {r2 with x := max 0 (r2.x - ms)} else r2
  if keys ("d") || keys ("arrowright") then
    {r3 with x := min (800 - r3.width) (r3.x + ms)} else r3

/-- Spawned obstacle (lines 124-133): a single type coin picks meteor
(size 30) or satellite (size 40); x starts at the canvas width 800; y is
the y draw scaled by (600 - size); speed comes from the mode. -/
def spawnObstacle (mode : GameMode) (rand : FrameRand) : Obstacle :=
  let size : ℚ := if rand.typeRand > 1/2 then 30 else 40
  { x := 800
    y := rand.yRand * (600 - size)
    width := size
    height := size
    speed := obstacleSpeed mode
    type := if rand.typeRand > 1/2 then ObstacleType.meteor else ObstacleType.satellite }

/-- One obstacle movement step: obstacles[i].x -= obstacles[i].speed
(line 139). -/
def moveObstacle (o : Obstacle) : Obstacle :=
  {o with x := o.x - o.speed}

/-- The move-and-remove loop (lines 137-147). The source iterates the
array from the last index down to 0, moving each obstacle and splicing it
out with a +10 score reward when its right edge has passed x = 0; since
removal at an index never affects lower indices, each element is
processed exactly once and the relative order of survivors is kept, which
this order-preserving recursion reproduces. Returns the surviving
obstacles and the total score gained. -/
def stepObstacles : List Obstacle → List Obstacle × Nat
  | [] => ([], 0)
  | o :: rest =>
      let o1 := moveObstacle o
      let r := stepObstacles rest
      if o1.x + o1.width < 0 then (r.1, r.2 + 10) else (o1 :: r.1, r.2)

/-- The JavaScript comparison state.score > highScore (line 153), with
highScore possibly NaN (none): any comparison against NaN is false. -/
def jsGt (score : Nat) (hs : Option Int) : Bool :=
  match hs with
  | none => false
  | some v => decide ((score : Int) > v)

/-- The non-frozen part of the frame (lines 106-160): rocket movement,
obstacle spawning, obstacle movement/removal with scoring, and collision
detection with the game-over and high-score bookkeeping. The frame
counter of the state passed in has already been incremented. -/
def normalFrame (rand : FrameRand) (sess : Session) : Session :=
  let st := sess.state
  let rocket := rocketMove sess.mode st.keys st.rocket
  let spawn := decide ((st.frameCount : Int) - (st.lastObstacleFrame : Int) > spawnRate sess.mode)
  let obstacles0 := if spawn then st.obstacles ++ [spawnObstacle sess.mode rand] else st.obstacles
  let lastObstacleFrame := if spawn then st.frameCount else st.lastObstacleFrame
  let mo := stepObstacles obstacles0
  let score := st.score + mo.2
  let st1 : GState :=
    { st with rocket := rocket, obstacles := mo.1,
              lastObstacleFrame := lastObstacleFrame, score := score }
  if mo.1.any (fun o => checkCollision rocket o.toGameObject) then
    if jsGt score sess.highScore then
      { sess with state := st1, gameOver := true, highScore := some (score : Int),
                  store := fun m => if m = sess.mode then some (toString score) else sess.store m }
    else
      { sess with state := st1, gameOver := true }
  else
    { sess with state := st1 }

/-- One invocation of gameLoop (lines 78-166): an early return when the
game is over; otherwise frameCount++ and, in 4G mode, the freeze
scheduling (lines 87-104) — on a frame whose counter is a multiple of 120
with a winning coin the freeze flag is set with a 15-frame counter, and
while the flag is set with a positive counter the frame only decrements
the counter (render-only); otherwise the flag clears and the normal
updates run. -/
def stepFrame (rand : FrameRand) (sess : Session) : Session :=
  if sess.gameOver then sess
  else
    let st := {sess.state with frameCount := sess.state.frameCount + 1}
    match sess.mode with
    | GameMode.g4 =>
        let st2 := if st.frameCount % 120 = 0 ∧ rand.freezeRand > 1/2 then
            {st with shouldFreeze := true, freezeCounter := 15} else st
        if st2.shouldFreeze ∧ st2.freezeCounter > 0 then
          { sess with state := {st2 with freezeCounter := st2.freezeCounter - 1} }
        else
          normalFrame rand { sess with state := {st2 with shouldFreeze := false} }
    | GameMode.g5 =>
        normalFrame rand { sess with state := st }

/-- Run n driver frames, frame k consuming the draws rands (k-1). -/
def runFrames (rands : Nat → FrameRand) (sess : Session) : Nat → Session
  | 0 => sess
  | n + 1 => stepFrame (rands n) (runFrames rands sess n)

/-- Model of the JavaScript parseInt builtin on its default radix, on the
inputs this program can meet (the 0x hex-prefix path is not modelled):
leading whitespace is skipped, an optional sign is read, and the longest
leading run of decimal digits gives the value; none models NaN, returned
when no digit is found. -/
def parseIntJS (s : String) : Option Int :=
  let cs := s.toList.dropWhile (fun c => c.isWhitespace)
  let sgn : Int := match cs with
    | '-' :: _ => -1
    | _ => 1
  let cs2 := match cs with
    | '-' :: rest => rest
    | '+' :: rest => rest
    | other => other
  let ds := cs2.takeWhile (fun c => c.isDigit)
  if ds.isEmpty then none
  else some (sgn * (ds.foldl (fun acc c => acc * 10 + (c.toNat - 48)) 0 : Nat))

/-- The highScore initializer (lines 30-33): a missing or empty stored
entry gives 0, anything else is handed to parseInt (none models NaN). -/
def initHighScore (saved : Option String) : Option Int :=
  match saved with
  | none => some 0
  | some s => if s = "" then some 0 else parseIntJS s

/-- The initial value of gameStateRef (lines 36-47), also installed by
handleRestart (lines 315-329). -/
def initGState : GState :=
  { rocket := { x := 100, y := 300, width := 40, height := 60, speed := 5 }
    obstacles := []
    keys := fun _ => false
    score := 0
    frameCount := 0
    lastObstacleFrame := 0
    lagFrames := 0
    shouldFreeze := false
    freezeCounter := 0 }

/-- A fresh session in the given mode over the given persisted store:
the high score is read from the store entry of the active mode. -/
def initialSession (mode : GameMode) (store : GameMode → Option String) : Session :=
  { mode := mode
    state := initGState
    gameOver := false
    highScore := initHighScore (store mode)
    store := store }

/-- handleRestart (lines 315-329): clears gameOver and reinstalls the
initial game state; the mode, the highScore React state and the persisted
store are untouched. -/
def handleRestart (sess : Session) : Session :=
  { sess with gameOver := false, state := initGState }

/-- The sessions the program can actually be in: a fresh session, and
closure under driver frames, key events (which only rewrite the held-key
map) and restarts. -/
inductive Reachable : Session → Prop
  | init : ∀ mode store, Reachable (initialSession mode store)
  | step : ∀ rand sess, Reachable sess → Reachable (stepFrame rand sess)
  | keyEvent : ∀ keys sess, Reachable sess →
      Reachable { sess with state := {sess.state with keys := keys} }
  | restart : ∀ sess, Reachable sess → Reachable (handleRestart sess)

/-- A draw sequence whose coins all lose (0 is not greater than 0.5) and
whose y draw is 0. -/
def rands0 : Nat → FrameRand := fun _ => { freezeRand := 0, typeRand := 0, yRand := 0 }

/-- While the frame counter has not yet exceeded the spawn-rate
constant, a fresh session with no held keys only counts frames: no
obstacle spawns, the rocket does not move, the score stays 0 (the freeze
coin is assumed to lose on every frame in degraded mode). -/
theorem runFrames_early (mode : GameMode) (store : GameMode → Option String)
    (rands : Nat → FrameRand)
    (hfr : ∀ i, mode = GameMode.g4 → ¬ ((rands i).freezeRand > 1/2)) :
    ∀ n : Nat, (n : Int) ≤ spawnRate mode →
      runFrames rands (initialSession mode store) n =
        { initialSession mode store with state := {initGState with frameCount := n} } := by
  intro n
  induction n with
  | zero => intro _; rfl
  | succ n ih =>
      intro hn
      have hn1 : ((n : Int) + 1) ≤ spawnRate mode := by exact_mod_cast hn
      have hn0 : (n : Int) ≤ spawnRate mode := by linarith
      have hsp : ¬ (spawnRate mode < (n : Int) + 1) := not_lt.mpr hn1
      rw [runFrames, ih hn0]
      cases mode with
      | g5 =>
          simp [stepFrame, normalFrame, initialSession, initGState, rocketMove,
                stepObstacles, hsp]
      | g4 =>
          have hfr0 : ¬ ((1 : ℚ)/2 < (rands n).freezeRand) := hfr n rfl
          rw [one_div] at hfr0
          simp [stepFrame, normalFrame, initialSession, initGState, rocketMove,
                stepObstacles, hsp, hfr0]

/-- Claim C8: checkCollision is a pure predicate on two rectangles that
holds iff their axis-aligned bounding boxes overlap, with strict
inequalities on all four comparisons; rectangles that merely touch at an
edge are non-colliding; it returns false on A = (0,0,10,10) versus
B = (20,0,10,10) (and versus the edge-touching (10,0,10,10)), and true on
A versus (5,5,10,10). -/
theorem checkCollision_spec :
    (∀ rect1 rect2 : GameObject,
      checkCollision rect1 rect2 = true ↔
        (rect1.x < rect2.x + rect2.width ∧ rect1.x + rect1.width > rect2.x ∧
         rect1.y < rect2.y + rect2.height ∧ rect1.y + rect1.height > rect2.y)) ∧
    checkCollision ⟨0, 0, 10, 10, 0⟩ ⟨20, 0, 10, 10, 0⟩ = false ∧
    checkCollision ⟨0, 0, 10, 10, 0⟩ ⟨10, 0, 10, 10, 0⟩ = false ∧
    checkCollision ⟨0, 0, 10, 10, 0⟩ ⟨5, 5, 10, 10, 0⟩ = true := by
  refine ⟨fun rect1 rect2 => ?_, by norm_num [checkCollision], by norm_num [checkCollision],
    by norm_num [checkCollision]⟩
  simp [checkCollision, and_assoc]

/-- Claim C9: restart resets frameCounter to 0, score to 0 and the
obstacle collection to empty, keeps the selected mode, and leaves every
persisted high-score entry (in particular those of the other mode) unchanged. -/
theorem restart_resets_session (sess : Session) :
    (handleRestart sess).state.frameCount = 0 ∧
    (handleRestart sess).state.score = 0 ∧
    (handleRestart sess).state.obstacles = [] ∧
    (handleRestart sess).mode = sess.mode ∧
    ∀ m, (handleRestart sess).store m = sess.store m :=
  ⟨rfl, rfl, rfl, rfl, fun _ => rfl⟩

/-- Frame 61 of a fresh premium-mode session with no held keys: the
spawner finally fires (61 - 0 > 60) and the new obstacle is moved by its
own speed within the same frame. -/
theorem runFrames_g5_first_spawn (store : GameMode → Option String) (rands : Nat → FrameRand) :
    runFrames rands (initialSession GameMode.g5 store) 61 =
      { initialSession GameMode.g5 store with
        state := { initGState with
                   frameCount := 61, lastObstacleFrame := 61,
                   obstacles := [moveObstacle (spawnObstacle GameMode.g5 (rands 60))] } } := by
  have h60 := runFrames_early GameMode.g5 store rands (by intro i h; cases h) 60
    (by norm_num [spawnRate])
  rw [show (61 : Nat) = 60 + 1 from rfl, runFrames, h60]
  have hkeep : ¬ ((moveObstacle (spawnObstacle GameMode.g5 (rands 60))).x +
      (moveObstacle (spawnObstacle GameMode.g5 (rands 60))).width < 0) := by
    simp only [moveObstacle, spawnObstacle, obstacleSpeed]
    split_ifs <;> norm_num
  have hcol : checkCollision { x := 100, y := 300, width := 40, height := 60, speed := 5 }
      (moveObstacle (spawnObstacle GameMode.g5 (rands 60))).toGameObject = false := by
    simp only [checkCollision, moveObstacle, spawnObstacle, obstacleSpeed]
    split_ifs <;> norm_num
  norm_num [stepFrame, normalFrame, initialSession, initGState, rocketMove, stepObstacles,
            spawnRate, hkeep, hcol]

/-- Claim C1 counterexample: after exactly 60 driver frames of a fresh
premium-mode session with no held keys, the obstacle collection is still
empty — the spawner fires only when frameCount - lastSpawnFrame is
strictly greater than 60, i.e. on frame 61 — so no obstacle exists, let
alone exactly one. -/
theorem no_obstacle_after_60_frames :
    (runFrames rands0 (initialSession GameMode.g5 (fun _ => none)) 60).state.obstacles = [] ∧
    ¬ (runFrames rands0 (initialSession GameMode.g5 (fun _ => none)) 60).state.obstacles.length
        = 1 := by
  have h := runFrames_early GameMode.g5 (fun _ => none) rands0 (by intro i hi; cases hi) 60
    (by norm_num [spawnRate])
  rw [h]
  exact ⟨rfl, by norm_num [initGState]⟩

/-- Claim C1 (amended): in premium ("5G") mode, starting from the initial
session state with no held keys and an empty obstacle collection, after
exactly 61 driver frames (the spawner fires when frameCount minus
lastSpawnFrame exceeds the 60-frame interval, so the first spawn is on
frame 61) exactly one obstacle exists; its x equals
800 - (frames elapsed since its spawn, here 1) x (its speed 4) = 796, and
its y lies within [0, 600 - size]. -/
theorem first_obstacle_after_61_frames (store : GameMode → Option String)
    (rands : Nat → FrameRand)
    (h0 : 0 ≤ (rands 60).yRand) (h1 : (rands 60).yRand < 1) :
    (runFrames rands (initialSession GameMode.g5 store) 61).state.obstacles.length = 1 ∧
    ∀ ob ∈ (runFrames rands (initialSession GameMode.g5 store) 61).state.obstacles,
      ob.x = 800 - 1 * ob.speed ∧ ob.speed = 4 ∧ 0 ≤ ob.y ∧ ob.y ≤ 600 - ob.width := by
  rw [runFrames_g5_first_spawn store rands]
  refine ⟨rfl, ?_⟩
  intro ob hob
  simp only [List.mem_singleton] at hob
  subst hob
  simp only [moveObstacle, spawnObstacle, obstacleSpeed]
  by_cases hc : (rands 60).typeRand > 1/2
  · simp only [hc, if_pos]
    refine ⟨by norm_num, by norm_num, ?_, ?_⟩
    · exact mul_nonneg h0 (by norm_num)
    · nlinarith
  · simp only [hc, if_neg, if_false]
    refine ⟨by norm_num, by norm_num, ?_, ?_⟩
    · exact mul_nonneg h0 (by norm_num)
    · nlinarith

/-- Witness for the amended claim C1 at the concrete all-zero draw
sequence. -/
theorem first_obstacle_after_61_frames_witness :
    (0 : ℚ) ≤ (rands0 60).yRand ∧ (rands0 60).yRand < 1 ∧
    (runFrames rands0 (initialSession GameMode.g5 (fun _ => none)) 61).state.obstacles.length
      = 1 :=
  ⟨by norm_num [rands0], by norm_num [rands0],
    (first_obstacle_after_61_frames (fun _ => none) rands0 (by norm_num [rands0])
      (by norm_num [rands0])).1⟩

/-- Frame 51 of a fresh degraded-mode session with no held keys and
all-zero draws: the spawner fires (51 - 0 > 50) and the new obstacle is
moved by its own speed within the same frame. -/
theorem runFrames_g4_first_spawn (store : GameMode → Option String) :
    runFrames rands0 (initialSession GameMode.g4 store) 51 =
      { initialSession GameMode.g4 store with
        state := { initGState with
                   frameCount := 51, lastObstacleFrame := 51,
                   obstacles := [moveObstacle (spawnObstacle GameMode.g4 (rands0 50))] } } := by
  have h50 := runFrames_early GameMode.g4 store rands0
    (by intro i hi; norm_num [rands0]) 50 (by norm_num [spawnRate])
  rw [show (51 : Nat) = 50 + 1 from rfl, runFrames, h50]
  have hkeep : ¬ ((moveObstacle (spawnObstacle GameMode.g4 (rands0 50))).x +
      (moveObstacle (spawnObstacle GameMode.g4 (rands0 50))).width < 0) := by
    simp only [moveObstacle, spawnObstacle, obstacleSpeed, rands0]
    norm_num
  have hcol : checkCollision { x := 100, y := 300, width := 40, height := 60, speed := 5 }
      (moveObstacle (spawnObstacle GameMode.g4 (rands0 50))).toGameObject = false := by
    simp only [checkCollision, moveObstacle, spawnObstacle, obstacleSpeed, rands0]
    norm_num
  have hfz : ((50 : Nat) + 1) % 120 = 0 ∧ (rands0 50).freezeRand > 1/2 → False := by
    intro h
    exact absurd h.1 (by norm_num)
  norm_num [stepFrame, normalFrame, initialSession, initGState, rocketMove, stepObstacles,
            spawnRate, hkeep, hcol, hfz]

/-- Claim C2 (documents the code bug): the source constants give the
premium mode the LARGER spawn interval (60 frames versus 50), so with the
same losing freeze coins a fresh degraded-mode session has spawned an
obstacle by frame 51 while a premium-mode session has spawned none; the
comment in the code on the constant ("5G: more frequent") and the spec
say the opposite. -/
theorem spawn_interval_premium_slower :
    spawnRate GameMode.g5 = 60 ∧ spawnRate GameMode.g4 = 50 ∧
    spawnRate GameMode.g4 < spawnRate GameMode.g5 ∧
    (runFrames rands0 (initialSession GameMode.g4 (fun _ => none)) 51).state.obstacles.length
      = 1 ∧
    (runFrames rands0 (initialSession GameMode.g5 (fun _ => none)) 51).state.obstacles.length
      = 0 := by
  refine ⟨rfl, rfl, by norm_num [spawnRate], ?_, ?_⟩
  · rw [runFrames_g4_first_spawn]
    rfl
  · rw [runFrames_early GameMode.g5 (fun _ => none) rands0 (by intro i hi; cases hi) 51
      (by norm_num [spawnRate])]
    rfl

/-- Claim C3 counterexample: with a stored entry "abc" — present but
unparseable as an integer — the high-score initializer yields NaN
(modelled as none), not 0 as the claim states. -/
theorem unparseable_highscore_not_zero :
    initHighScore (some ("abc")) = none ∧ ¬ initHighScore (some ("abc")) = some 0 := by
  have h : initHighScore (some ("abc")) = none := rfl
  refine ⟨h, ?_⟩
  rw [h]
  simp

/-- Claim C3 (amended): at session start a missing stored entry (and also
an empty one, which JavaScript treats as falsy) reads as high score 0; a
present non-empty entry is handed to parseInt unchecked, so an entry with
no leading digits yields NaN (modelled as none) rather than 0. No error
is surfaced in either case: the initializer is a total function. -/
theorem highscore_read_defaults :
    initHighScore none = some 0 ∧ initHighScore (some ("")) = some 0 ∧
    (∀ s, ¬ s = "" → initHighScore (some s) = parseIntJS s) := by
  refine ⟨rfl, rfl, fun s hs => ?_⟩
  simp [initHighScore, hs]

/-- Witness for the amended claim C3 at the concrete unparseable entry
"abc" (whose parse is NaN) and at the digit entry "37". -/
theorem highscore_read_defaults_witness :
    ¬ ("abc" : String) = "" ∧ initHighScore (some ("abc")) = parseIntJS ("abc") ∧
    ¬ ("37" : String) = "" ∧ initHighScore (some ("37")) = parseIntJS ("37") :=
  ⟨by decide, highscore_read_defaults.2.2 ("abc") (by decide),
   by decide, highscore_read_defaults.2.2 ("37") (by decide)⟩

/-- The survivors of the move-and-remove pass are exactly the moved
obstacles whose right edge is still at or beyond x = 0, in order. -/
theorem stepObstacles_fst (obs : List Obstacle) :
    (stepObstacles obs).1 =
      (obs.map moveObstacle).filter (fun o => !decide (o.x + o.width < 0)) := by
  induction obs with
  | nil => rfl
  | cons o rest ih =>
      simp only [stepObstacles, List.map_cons, List.filter_cons]
      by_cases h : (moveObstacle o).x + (moveObstacle o).width < 0
      · simp [h, ih]
      · simp [h, ih]

/-- The score gained by the move-and-remove pass is exactly 10 per
removed (off-screen) obstacle. -/
theorem stepObstacles_snd (obs : List Obstacle) :
    (stepObstacles obs).2 =
      10 * (obs.map moveObstacle).countP (fun o => decide (o.x + o.width < 0)) := by
  induction obs with
  | nil => rfl
  | cons o rest ih =>
      simp only [stepObstacles, List.map_cons, List.countP_cons]
      by_cases h : (moveObstacle o).x + (moveObstacle o).width < 0
      · simp [h, ih]
        ring
      · simp [h, ih]

/-- Claim C6: in the per-frame obstacle pass each obstacle first moves by
its speed; the surviving collection is then exactly the moved obstacles
whose right edge (x + width) is not below 0, kept in order — so an
off-screen obstacle is removed exactly once — and the score gained is
exactly 10 times the number of removed obstacles, so removal and the +10
reward never occur separately. -/
theorem obstacle_removal_scores_ten (obs : List Obstacle) :
    (stepObstacles obs).1 =
      (obs.map moveObstacle).filter (fun o => !decide (o.x + o.width < 0)) ∧
    (stepObstacles obs).2 =
      10 * (obs.map moveObstacle).countP (fun o => decide (o.x + o.width < 0)) :=
  ⟨stepObstacles_fst obs, stepObstacles_snd obs⟩

/-- The non-frozen frame never decreases the score. -/
theorem normalFrame_score_mono (rand : FrameRand) (sess : Session) :
    sess.state.score ≤ (normalFrame rand sess).state.score := by
  simp only [normalFrame]
  split_ifs <;> exact Nat.le_add_right _ _

/-- Restatement of the score monotonicity of the non-frozen frame with a
free left-hand side, for use under definitional unfolding. -/
theorem normalFrame_score_mono2 (rand : FrameRand) (sess : Session) (n : Nat)
    (h : n = sess.state.score) : n ≤ (normalFrame rand sess).state.score :=
  h ▸ normalFrame_score_mono rand sess

/-- A driver frame never decreases the score. -/
theorem stepFrame_score_mono (rand : FrameRand) (sess : Session) :
    sess.state.score ≤ (stepFrame rand sess).state.score := by
  by_cases hgo : sess.gameOver = true
  · simp [stepFrame, hgo]
  · have hgo2 : sess.gameOver = false := by
      cases hb : sess.gameOver
      · rfl
      · exact absurd hb hgo
    cases hm : sess.mode with
    | g4 =>
        simp only [stepFrame, hgo2, Bool.false_eq_true, if_false, hm]
        split_ifs <;> first
          | exact le_rfl
          | exact normalFrame_score_mono2 _ _ _ rfl
    | g5 =>
        simp only [stepFrame, hgo2, Bool.false_eq_true, if_false, hm]
        exact normalFrame_score_mono2 _ _ _ rfl

/-- If a non-frozen frame changed the persisted store, then that frame
ended the game with a score beating the session high score, wrote exactly
the entry of the active mode, and left every other entry unchanged. -/
theorem normalFrame_store_change (rand : FrameRand) (sess : Session)
    (h : ¬ (normalFrame rand sess).store = sess.store) :
    (normalFrame rand sess).gameOver = true ∧
    jsGt (normalFrame rand sess).state.score sess.highScore = true ∧
    (normalFrame rand sess).store sess.mode
      = some (toString (normalFrame rand sess).state.score) ∧
    ∀ m, ¬ m = sess.mode → (normalFrame rand sess).store m = sess.store m := by
  simp only [normalFrame] at h ⊢
  split_ifs at h ⊢
  all_goals first
    | exact absurd rfl h
    | exact ⟨rfl, by assumption, by simp, fun m hm => by simp [hm]⟩

/-- A driver frame on a live session either leaves the store untouched or
routes through the non-frozen frame body on a state-adjusted session. -/
theorem stepFrame_store_shape (rand : FrameRand) (sess : Session)
    (hgo : sess.gameOver = false) :
    (stepFrame rand sess).store = sess.store ∨
    ∃ st2 : GState, stepFrame rand sess = normalFrame rand { sess with state := st2 } := by
  cases hm : sess.mode with
  | g4 =>
      simp only [stepFrame, hgo, Bool.false_eq_true, if_false, hm]
      split_ifs
      · exact Or.inl rfl
      · exact Or.inr ⟨_, rfl⟩
      · exact Or.inl rfl
      · exact Or.inr ⟨_, rfl⟩
  | g5 =>
      simp only [stepFrame, hgo, Bool.false_eq_true, if_false, hm]
      exact Or.inr ⟨_, rfl⟩

/-- The JavaScript strict comparison against a possibly-NaN stored value
holds exactly when the value is a genuine integer strictly below the
score. -/
theorem jsGt_iff (n : Nat) (hs : Option Int) :
    jsGt n hs = true ↔ ∃ v, hs = some v ∧ (n : Int) > v := by
  cases hs <;> simp [jsGt]

/-- Claim C7: a driver frame never decreases the score, and whenever it
changes the persisted store it is the game-over transition of a live
session whose final score strictly exceeds the previously stored session
high score; the write targets exactly the entry of the active mode (with the
final score) and leaves the entry of every other mode unchanged. -/
theorem highscore_write_discipline (rand : FrameRand) (sess : Session) :
    sess.state.score ≤ (stepFrame rand sess).state.score ∧
    (¬ (stepFrame rand sess).store = sess.store →
      sess.gameOver = false ∧ (stepFrame rand sess).gameOver = true ∧
      (∃ v, sess.highScore = some v ∧ ((stepFrame rand sess).state.score : Int) > v) ∧
      (stepFrame rand sess).store sess.mode
        = some (toString (stepFrame rand sess).state.score) ∧
      ∀ m, ¬ m = sess.mode → (stepFrame rand sess).store m = sess.store m) := by
  refine ⟨stepFrame_score_mono rand sess, fun h => ?_⟩
  have hgo2 : sess.gameOver = false := by
    cases hb : sess.gameOver
    · rfl
    · exact absurd (by simp [stepFrame, hb]) h
  rcases stepFrame_store_shape rand sess hgo2 with hsame | ⟨st2, heq⟩
  · exact absurd hsame h
  · rw [heq] at h ⊢
    have hc := normalFrame_store_change rand _ h
    exact ⟨hgo2, hc.1, (jsGt_iff _ _).mp hc.2.1, hc.2.2.1, hc.2.2.2⟩

/-- A concrete live premium-mode session one frame away from a
high-score-beating collision: score 50 against a stored 0, with an
obstacle overlapping the rocket after its movement. -/
def sessW : Session :=
  { mode := GameMode.g5
    state := { initGState with
               score := 50,
               obstacles := [{ x := 120, y := 310, width := 30, height := 30, speed := 4,
                               type := ObstacleType.meteor }] }
    gameOver := false
    highScore := some 0
    store := fun _ => none }

/-- Witness for claim C7: on the concrete session sessW the frame does
change the store, and the theorem yields the game-over transition and the
mode-keyed write. -/
theorem highscore_write_discipline_witness :
    ¬ (stepFrame (rands0 0) sessW).store = sessW.store ∧
    (stepFrame (rands0 0) sessW).gameOver = true ∧
    (stepFrame (rands0 0) sessW).store GameMode.g5
      = some (toString (stepFrame (rands0 0) sessW).state.score) := by
  have hne : ¬ (stepFrame (rands0 0) sessW).store = sessW.store := by
    intro heq
    have h5 := congrFun heq GameMode.g5
    norm_num [stepFrame, normalFrame, rocketMove, stepObstacles, moveObstacle, checkCollision,
              jsGt, sessW, initGState, spawnRate, moveSpeed] at h5
    exact Option.noConfusion h5
  have hc := (highscore_write_discipline (rands0 0) sessW).2 hne
  exact ⟨hne, hc.2.1, hc.2.2.2.1⟩

/-- The rocket invariant: the fixed 40x60 sprite kept inside the 800x600
field. -/
def RocketInv (r : GameObject) : Prop :=
  r.width = 40 ∧ r.height = 60 ∧ 0 ≤ r.x ∧ r.x ≤ 760 ∧ 0 ≤ r.y ∧ r.y ≤ 540

theorem inv_if (c : Prop) [Decidable c] (a b : GameObject) (ha : RocketInv a)
    (hb : RocketInv b) : RocketInv (if c then a else b) := by
  by_cases hc : c
  · rwa [if_pos hc]
  · rwa [if_neg hc]

theorem inv_up (ms : ℚ) (hms : 0 ≤ ms) (r : GameObject) (h : RocketInv r) :
    RocketInv {r with y := max 0 (r.y - ms)} := by
  obtain ⟨hw, hh, hx0, hx1, hy0, hy1⟩ := h
  exact ⟨hw, hh, hx0, hx1, le_max_left _ _, max_le (by norm_num) (by linarith)⟩

theorem inv_down (ms : ℚ) (hms : 0 ≤ ms) (r : GameObject) (h : RocketInv r) :
    RocketInv {r with y := min (600 - r.height) (r.y + ms)} := by
  obtain ⟨hw, hh, hx0, hx1, hy0, hy1⟩ := h
  refine ⟨hw, hh, hx0, hx1, le_min (by rw [hh]; norm_num) (by linarith), ?_⟩
  calc min (600 - r.height) (r.y + ms) ≤ 600 - r.height := min_le_left _ _
    _ = 540 := by rw [hh]; norm_num

theorem inv_left (ms : ℚ) (hms : 0 ≤ ms) (r : GameObject) (h : RocketInv r) :
    RocketInv {r with x := max 0 (r.x - ms)} := by
  obtain ⟨hw, hh, hx0, hx1, hy0, hy1⟩ := h
  exact ⟨hw, hh, le_max_left _ _, max_le (by norm_num) (by linarith), hy0, hy1⟩

theorem inv_right (ms : ℚ) (hms : 0 ≤ ms) (r : GameObject) (h : RocketInv r) :
    RocketInv {r with x := min (800 - r.width) (r.x + ms)} := by
  obtain ⟨hw, hh, hx0, hx1, hy0, hy1⟩ := h
  refine ⟨hw, hh, le_min (by rw [hw]; norm_num) (by linarith), ?_, hy0, hy1⟩
  calc min (800 - r.width) (r.x + ms) ≤ 800 - r.width := min_le_left _ _
    _ = 760 := by rw [hw]; norm_num

/-- The rocket-movement block keeps the rocket invariant: every clamp
lands back inside the field. -/
theorem rocketMove_inv (mode : GameMode) (keys : String → Bool) (r : GameObject)
    (h : RocketInv r) : RocketInv (rocketMove mode keys r) := by
  have hms : (0 : ℚ) ≤ moveSpeed mode := by cases mode <;> norm_num [moveSpeed]
  simp only [rocketMove]
  refine inv_if _ _ _ (inv_right _ hms _ ?h3) ?h3
  case h3 =>
    refine inv_if _ _ _ (inv_left _ hms _ ?h2) ?h2
    case h2 =>
      refine inv_if _ _ _ (inv_down _ hms _ ?h1) ?h1
      case h1 => exact inv_if _ _ _ (inv_up _ hms _ h) h

/-- The non-frozen frame applies exactly the rocket-movement block. -/
theorem normalFrame_rocket (rand : FrameRand) (sess : Session) :
    (normalFrame rand sess).state.rocket
      = rocketMove sess.mode sess.state.keys sess.state.rocket := by
  simp only [normalFrame]
  split_ifs <;> rfl

/-- A driver frame either leaves the rocket in place (game over or a
frozen frame) or applies exactly the rocket-movement block to it. -/
theorem stepFrame_rocket (rand : FrameRand) (sess : Session) :
    (stepFrame rand sess).state.rocket = sess.state.rocket ∨
    (stepFrame rand sess).state.rocket
      = rocketMove sess.mode sess.state.keys sess.state.rocket := by
  by_cases hgo : sess.gameOver = true
  · left
    simp [stepFrame, hgo]
  · have hgo2 : sess.gameOver = false := by
      cases hb : sess.gameOver
      · rfl
      · exact absurd hb hgo
    cases hm : sess.mode with
    | g4 =>
        simp only [stepFrame, hgo2, Bool.false_eq_true, if_false, hm]
        split_ifs
        · exact Or.inl rfl
        · exact Or.inr (normalFrame_rocket _ _)
        · exact Or.inl rfl
        · exact Or.inr (normalFrame_rocket _ _)
    | g5 =>
        simp only [stepFrame, hgo2, Bool.false_eq_true, if_false, hm]
        exact Or.inr (normalFrame_rocket _ _)

/-- Over every reachable session the rocket invariant holds. -/
theorem reachable_rocket_inv (sess : Session) (h : Reachable sess) :
    RocketInv sess.state.rocket := by
  induction h with
  | init mode store =>
      exact ⟨rfl, rfl, by norm_num [initialSession, initGState],
        by norm_num [initialSession, initGState], by norm_num [initialSession, initGState],
        by norm_num [initialSession, initGState]⟩
  | step rand sess2 hr ih =>
      rcases stepFrame_rocket rand sess2 with he | he
      · rw [he]; exact ih
      · rw [he]; exact rocketMove_inv _ _ _ ih
  | keyEvent keys sess2 hr ih => exact ih
  | restart sess2 hr ih =>
      exact ⟨rfl, rfl, by norm_num [handleRestart, initGState],
        by norm_num [handleRestart, initGState], by norm_num [handleRestart, initGState],
        by norm_num [handleRestart, initGState]⟩

/-- Claim C4: over every reachable session — hence after each frame, for
every sequence of held-key inputs, key events and restarts — the rocket
position satisfies 0 ≤ x ≤ 800 - 40 and 0 ≤ y ≤ 600 - 60. -/
theorem rocket_stays_in_bounds (sess : Session) (h : Reachable sess) :
    0 ≤ sess.state.rocket.x ∧ sess.state.rocket.x ≤ 800 - 40 ∧
    0 ≤ sess.state.rocket.y ∧ sess.state.rocket.y ≤ 600 - 60 := by
  obtain ⟨hw, hh, hx0, hx1, hy0, hy1⟩ := reachable_rocket_inv sess h
  exact ⟨hx0, by linarith, hy0, by linarith⟩

/-- A fresh premium session after one frame with every key held. -/
def sessK : Session :=
  stepFrame (rands0 0)
    { initialSession GameMode.g5 (fun _ => none) with
      state := { (initialSession GameMode.g5 (fun _ => none)).state with
                 keys := fun _ => true } }

/-- Witness for claim C4 at the concrete reachable session sessK. -/
theorem rocket_stays_in_bounds_witness :
    0 ≤ sessK.state.rocket.x ∧ sessK.state.rocket.x ≤ 800 - 40 ∧
    0 ≤ sessK.state.rocket.y ∧ sessK.state.rocket.y ≤ 600 - 60 :=
  rocket_stays_in_bounds sessK
    (Reachable.step _ _ (Reachable.keyEvent _ _ (Reachable.init _ _)))

/-- Both mode constants give the obstacles speed at least 3. -/
theorem obstacleSpeed_ge3 (mode : GameMode) : 3 ≤ obstacleSpeed mode := by
  cases mode <;> norm_num [obstacleSpeed]

/-- Every obstacle surviving a non-frozen frame is a moved copy of either
a pre-existing obstacle or of the obstacle spawned this frame. -/
theorem normalFrame_obstacle_mem (rand : FrameRand) (sess : Session) (o : Obstacle)
    (ho : o ∈ (normalFrame rand sess).state.obstacles) :
    ∃ o0, (o0 ∈ sess.state.obstacles ∨ o0 = spawnObstacle sess.mode rand) ∧
      o = moveObstacle o0 := by
  simp only [normalFrame] at ho
  split_ifs at ho
  all_goals (
    rw [stepObstacles_fst] at ho
    simp only [List.mem_filter, List.mem_map, List.mem_append, List.mem_singleton] at ho
    first
      | (obtain ⟨⟨a, ha, hao⟩, hkeep⟩ := ho
         exact ⟨a, Or.inl ha, hao.symm⟩)
      | (obtain ⟨⟨a, ha, hao⟩, hkeep⟩ := ho
         exact ⟨a, ha, hao.symm⟩))

/-- A live driver frame either leaves the obstacle collection unchanged
(frozen frame) or routes through the non-frozen frame body on a
state-adjusted session with the same obstacles. -/
theorem stepFrame_obstacles_shape (rand : FrameRand) (sess : Session)
    (hgo : sess.gameOver = false) :
    (stepFrame rand sess).state.obstacles = sess.state.obstacles ∨
    ∃ sess2 : Session, stepFrame rand sess = normalFrame rand sess2 ∧
      sess2.state.obstacles = sess.state.obstacles ∧ sess2.mode = sess.mode := by
  cases hm : sess.mode with
  | g4 =>
      simp only [stepFrame, hgo, Bool.false_eq_true, if_false, hm]
      split_ifs
      · exact Or.inl rfl
      · exact Or.inr ⟨_, rfl, rfl, rfl⟩
      · exact Or.inl rfl
      · exact Or.inr ⟨_, rfl, rfl, rfl⟩
  | g5 =>
      simp only [stepFrame, hgo, Bool.false_eq_true, if_false, hm]
      exact Or.inr ⟨_, rfl, rfl, rfl⟩

/-- Every obstacle present after a driver frame is a pre-existing one, or
a moved copy of a pre-existing or just-spawned one. -/
theorem stepFrame_obstacle_mem (rand : FrameRand) (sess : Session) (o : Obstacle)
    (ho : o ∈ (stepFrame rand sess).state.obstacles) :
    o ∈ sess.state.obstacles ∨
    ∃ o0, (o0 ∈ sess.state.obstacles ∨ o0 = spawnObstacle sess.mode rand) ∧
      o = moveObstacle o0 := by
  by_cases hgo : sess.gameOver = true
  · rw [show stepFrame rand sess = sess from by simp [stepFrame, hgo]] at ho
    exact Or.inl ho
  · have hgo2 : sess.gameOver = false := by
      cases hb : sess.gameOver
      · rfl
      · exact absurd hb hgo
    rcases stepFrame_obstacles_shape rand sess hgo2 with he | ⟨sess2, heq, hob, hmode⟩
    · rw [he] at ho
      exact Or.inl ho
    · rw [heq] at ho
      obtain ⟨o0, ho0, hoo⟩ := normalFrame_obstacle_mem rand _ o ho
      refine Or.inr ⟨o0, ?_, hoo⟩
      rcases ho0 with h0 | h0
      · left
        rw [← hob]
        exact h0
      · right
        rw [← hmode]
        exact h0

/-- Over every reachable session, every live obstacle sits at
x ≤ 797 and moves at least 3 per frame. -/
theorem reachable_obstacles_inv (sess : Session) (h : Reachable sess) :
    ∀ o ∈ sess.state.obstacles, o.x ≤ 797 ∧ 3 ≤ o.speed := by
  induction h with
  | init mode store =>
      intro o ho
      simp [initialSession, initGState] at ho
  | restart sess2 hr ih =>
      intro o ho
      simp [handleRestart, initGState] at ho
  | keyEvent keys sess2 hr ih => exact ih
  | step rand sess2 hr ih =>
      intro o ho
      rcases stepFrame_obstacle_mem rand sess2 o ho with hmem | ⟨o0, ho0, hoo⟩
      · exact ih o hmem
      · have hsp : o0.x ≤ 800 ∧ 3 ≤ o0.speed := by
          rcases ho0 with h0 | h0
          · obtain ⟨ha, hb⟩ := ih o0 h0
            exact ⟨by linarith, hb⟩
          · subst h0
            refine ⟨by simp [spawnObstacle], ?_⟩
            simpa [spawnObstacle] using obstacleSpeed_ge3 sess2.mode
        subst hoo
        obtain ⟨ha, hb⟩ := hsp
        constructor
        · show o0.x - o0.speed ≤ 797
          linarith
        · show 3 ≤ o0.speed
          exact hb

/-- Claim C10: because the obstacle-movement pass runs after the spawner
within the same frame, a just-spawned obstacle already sits at
x = 800 - speed when the frame ends; over every reachable session no
obstacle has x equal to the field width 800. -/
theorem no_obstacle_at_right_edge (sess : Session) (h : Reachable sess) :
    ∀ o ∈ sess.state.obstacles, ¬ o.x = 800 := by
  intro o ho hx
  have hi := reachable_obstacles_inv sess h o ho
  rw [hx] at hi
  linarith [hi.1]

/-- Iterating driver frames preserves reachability. -/
theorem reachable_runFrames (rands : Nat → FrameRand) (sess : Session)
    (h : Reachable sess) (n : Nat) : Reachable (runFrames rands sess n) := by
  induction n with
  | zero => exact h
  | succ n ih => exact Reachable.step _ _ ih

/-- Witness for claim C10: the single obstacle present after 61 frames of
a fresh premium session (a reachable state) is not at x = 800. -/
theorem no_obstacle_at_right_edge_witness :
    ¬ (moveObstacle (spawnObstacle GameMode.g5 (rands0 60))).x = 800 := by
  have hreach : Reachable (runFrames rands0 (initialSession GameMode.g5 (fun _ => none)) 61) :=
    reachable_runFrames rands0 _ (Reachable.init _ _) 61
  apply no_obstacle_at_right_edge _ hreach
  rw [runFrames_g5_first_spawn]
  simp

/-- The session i frames into a freeze: only the frame counter and the
freeze bookkeeping have advanced — rocket, obstacles, score, spawn
record, keys and the game-over flag are exactly those of the session the
freeze started from. -/
def frozenAt (sess : Session) (i : Nat) : Session :=
  { sess with state := { sess.state with
      frameCount := sess.state.frameCount + i,
      shouldFreeze := true,
      freezeCounter := 15 - i } }

/-- The session at the moment normal updates resume after a 15-frame
freeze: the freeze flag has cleared and the counter is back to 0. -/
def unfrozenAt (sess : Session) (i : Nat) : Session :=
  { sess with state := { sess.state with
      frameCount := sess.state.frameCount + i,
      shouldFreeze := false,
      freezeCounter := 0 } }

/-- Claim C5: in degraded ("4G") mode, when a live session whose freeze
counter is exhausted hits a frame whose counter is a multiple of 120 with
a winning coin, the counter is set to 15 and exactly 15 frames (the
trigger frame included) perform no movement, spawning, collision
detection or scoring — each merely decrements the counter by one while
the frame counter advances — after which the very next frame runs the
normal RUNNING update body. -/
theorem freeze_lasts_fifteen_frames (rands : Nat → FrameRand) (sess : Session)
    (hm : sess.mode = GameMode.g4) (hg : sess.gameOver = false)
    (_hc : sess.state.freezeCounter = 0)
    (hf : (sess.state.frameCount + 1) % 120 = 0)
    (hr : (rands 0).freezeRand > 1/2) :
    (∀ i, 1 ≤ i → i ≤ 15 → runFrames rands sess i = frozenAt sess i) ∧
    runFrames rands sess 16 = normalFrame (rands 15) (unfrozenAt sess 16) := by
  obtain ⟨k, hk⟩ : ∃ k, sess.state.frameCount + 1 = 120 * k :=
    Nat.dvd_of_mod_eq_zero hf
  have base : runFrames rands sess 1 = frozenAt sess 1 := by
    show stepFrame (rands 0) (runFrames rands sess 0) = frozenAt sess 1
    simp only [runFrames]
    simp only [stepFrame, hg, Bool.false_eq_true, if_false, hm, frozenAt]
    split_ifs with h1 h2 h3
    · rfl
    · exact absurd ⟨rfl, Nat.succ_pos 14⟩ h2
    · exact absurd ⟨hf, hr⟩ h1
    · exact absurd ⟨hf, hr⟩ h1
  have frozstep : ∀ i, 1 ≤ i → i ≤ 14 →
      runFrames rands sess i = frozenAt sess i →
      runFrames rands sess (i + 1) = frozenAt sess (i + 1) := by
    intro i h1 h14 hi
    have hnm : ¬ (sess.state.frameCount + i + 1) % 120 = 0 := by omega
    have hpos : 0 < 15 - i := by omega
    simp only [runFrames, hi]
    simp only [stepFrame, frozenAt, hg, Bool.false_eq_true, if_false, hm, hnm, hpos,
      false_and, if_false, and_true, eq_self_iff_true, if_true, gt_iff_lt]
    rfl
  have main : ∀ i, 1 ≤ i → i ≤ 15 → runFrames rands sess i = frozenAt sess i := by
    intro i
    induction i with
    | zero => intro h1 h15; omega
    | succ n ih =>
        intro h1 h15
        by_cases hn : n = 0
        · subst hn
          exact base
        · have hn1 : 1 ≤ n := Nat.one_le_iff_ne_zero.mpr hn
          exact frozstep n hn1 (by omega) (ih hn1 (by omega))
  refine ⟨main, ?_⟩
  have h15 := main 15 (by norm_num) (by norm_num)
  rw [show (16 : Nat) = 15 + 1 from rfl, runFrames, h15]
  have hnm : ¬ (sess.state.frameCount + 15 + 1) % 120 = 0 := by omega
  simp only [stepFrame, frozenAt, unfrozenAt, hg, Bool.false_eq_true, if_false, hm, hnm,
    false_and, if_false]
  split_ifs with h2
  · exact absurd h2.2 (show ¬ (0 < 15 - 15) by norm_num)
  · rfl

/-- A concrete degraded-mode session one frame before the 120-frame
freeze checkpoint. -/
def sessF : Session :=
  { mode := GameMode.g4
    state := { initGState with frameCount := 119 }
    gameOver := false
    highScore := some 0
    store := fun _ => none }

/-- Draws whose freeze coin always wins. -/
def randsF : Nat → FrameRand := fun _ => { freezeRand := 1, typeRand := 0, yRand := 0 }

/-- Witness for claim C5 on the concrete session sessF: the 15th frame of
the freeze and the resumption frame right after it. -/
theorem freeze_lasts_fifteen_frames_witness :
    runFrames randsF sessF 15 = frozenAt sessF 15 ∧
    runFrames randsF sessF 16 = normalFrame (randsF 15) (unfrozenAt sessF 16) := by
  have h := freeze_lasts_fifteen_frames randsF sessF rfl rfl rfl (by norm_num [sessF, initGState])
    (by norm_num [randsF])
  exact ⟨h.1 15 (by norm_num) (by norm_num), h.2⟩

end NeonSpeed
